import Mathlib

/-!
Verification development for the pageflow repository (SimplePage.ts and
SimplePageServer.ts). Shallow embedding: each definition mirrors a concrete
function or code block of the TypeScript source; machine integers appear as
Nat/Int, JavaScript Maps as insertion-ordered association lists, the
filesystem as a list of file names, and asynchronous control flow as explicit
state passing or a labelled step relation.
-/

namespace PageFlow

/-! ### Generic association-list helpers

JavaScript `Map` objects preserve insertion order; `get`/`set`/`delete` are
modelled on association lists with unique keys maintained by construction. -/

/-- Lookup in an association list with String keys (JS `Map.get`). -/
def alookup {β : Type} : List (String × β) → String → Option β
  | [], _ => none
  | (k, v) :: r, key => if k = key then some v else alookup r key

/-- `Map.set`: overwrite in place when the key exists, append otherwise. -/
def aset {β : Type} : List (String × β) → String → β → List (String × β)
  | [], k, v => [(k, v)]
  | (k0, v0) :: r, k, v => if k0 = k then (k, v) :: r else (k0, v0) :: aset r k v

theorem alookup_nil {β : Type} (k : String) : alookup ([] : List (String × β)) k = none := rfl

theorem alookup_cons {β : Type} (k0 k : String) (v0 : β) (r : List (String × β)) :
    alookup ((k0, v0) :: r) k = if k0 = k then some v0 else alookup r k := rfl

/-! ## Frame registry (SimplePage.ts lines 55-57 and 266-286)

`fidOrdinals : Map<string | undefined, number>` seeded with `[undefined, 0]`.
`none` stands for JavaScript `undefined`. -/

/-- The frame-ordinal table, in insertion order. -/
abbrev FidMap := List (Option String × Nat)

/-- `new Map([[undefined, 0]])` (SimplePage.ts lines 55-57). -/
def initialFidOrdinals : FidMap := [(none, 0)]

/-- `this.fidOrdinals.get(fid)`. -/
def fidGet : FidMap → Option String → Option Nat
  | [], _ => none
  | (k, v) :: r, fid => if k = fid then some v else fidGet r fid

/-- SimplePage.ts lines 266-275: `undefined` maps to 0 without touching the
map; a cached frame id returns its ordinal; a fresh frame id is assigned
`this.fidOrdinals.size` and inserted. Returns the ordinal and the new map. -/
def ordinalForFrameId (m : FidMap) (fid : Option String) : Nat × FidMap :=
  match fid with
  | none => (0, m)
  | some f =>
    match fidGet m (some f) with
    | some cached => (cached, m)
    | none => (m.length, m ++ [(some f, m.length)])

/-- SimplePage.ts lines 277-282: produce `"<ordinal>-<backendId>"`. -/
def encodeWithFrameId (m : FidMap) (fid : Option String) (backendId : Nat) :
    String × FidMap :=
  let r := ordinalForFrameId m fid
  (Nat.repr r.1 ++ "-" ++ Nat.repr backendId, r.2)

/-- SimplePage.ts lines 284-286: `reset` reinitializes to `[[undefined, 0]]`. -/
def resetFrameOrdinals : FidMap := [(none, 0)]

/-- Well-formedness of the ordinal table: keys are distinct and the values,
in insertion order, are exactly `0, 1, ..., size - 1`. -/
def FidWf (m : FidMap) : Prop :=
  (m.map (·.1)).Nodup ∧ m.map (·.2) = List.range m.length

theorem fidWf_initial : FidWf initialFidOrdinals := by
  constructor <;> simp [initialFidOrdinals, List.range_succ]

theorem fidGet_append_left (m l : FidMap) (k : Option String) (v : Nat)
    (h : fidGet m k = some v) : fidGet (m ++ l) k = some v := by
  induction m with
  | nil => simp [fidGet] at h
  | cons e r ih =>
    obtain ⟨k0, v0⟩ := e
    by_cases hk : k0 = k
    · subst hk
      simp [fidGet] at h ⊢
      exact h
    · simp [fidGet, hk] at h ⊢
      exact ih h

theorem fidGet_none_not_mem (m : FidMap) (k : Option String)
    (h : fidGet m k = none) : k ∉ m.map (·.1) := by
  induction m with
  | nil => simp
  | cons e r ih =>
    obtain ⟨k0, v0⟩ := e
    by_cases hk : k0 = k
    · subst hk; simp [fidGet] at h
    · simp [fidGet, hk] at h
      simp only [List.map_cons, List.mem_cons]
      push_neg
      exact ⟨fun hkk => hk hkk.symm, fun hm => ih h hm⟩

theorem fidWf_values_lt (m : FidMap) (h : FidWf m) :
    ∀ v ∈ m.map (·.2), v < m.length := by
  intro v hv
  rw [h.2] at hv
  exact List.mem_range.mp hv

theorem fidWf_insert (m : FidMap) (f : String) (h : FidWf m)
    (hf : fidGet m (some f) = none) : FidWf (m ++ [(some f, m.length)]) := by
  constructor
  · simp only [List.map_append, List.map_cons, List.map_nil]
    rw [List.nodup_append]
    refine ⟨h.1, List.nodup_singleton _, ?_⟩
    intro a ha hb
    simp at hb
    subst hb
    exact fidGet_none_not_mem m (some f) hf ha
  · simp only [List.map_append, List.map_cons, List.map_nil, List.length_append,
      List.length_cons, List.length_nil]
    rw [h.2, ← List.range_succ]

/-- Number of `'-'` characters in a string (the encoded-id separator). -/
def dashCount (s : String) : Nat := s.toList.countP (fun c => decide (c = '-'))

theorem digitChar_ne_dash (k : Nat) (h : k < 10) : ¬ (Nat.digitChar k = '-') := by
  interval_cases k <;> decide

theorem toDigitsCore_countP_dash (fuel : Nat) :
    ∀ (n : Nat) (acc : List Char),
      (Nat.toDigitsCore 10 fuel n acc).countP (fun c => decide (c = '-')) =
        acc.countP (fun c => decide (c = '-')) := by
  induction fuel with
  | zero => intro n acc; rfl
  | succ fuel ih =>
    intro n acc
    rw [Nat.toDigitsCore]
    have hd : ¬ (Nat.digitChar (n % 10) = '-') :=
      digitChar_ne_dash _ (Nat.mod_lt _ (by decide))
    by_cases hz : n / 10 = 0
    · simp [hz, List.countP_cons, hd]
    · simp only [hz, if_false]
      rw [ih]
      simp [List.countP_cons, hd]

theorem dashCount_repr (n : Nat) : dashCount (Nat.repr n) = 0 := by
  show (Nat.toDigits 10 n).countP (fun c => decide (c = '-')) = 0
  rw [Nat.toDigits, toDigitsCore_countP_dash]
  rfl

theorem dashCount_append (s t : String) :
    dashCount (s ++ t) = dashCount s + dashCount t := by
  show ((s ++ t).data).countP _ = (s.data).countP _ + (t.data).countP _
  rw [String.data_append, List.countP_append]

/-- C6. The frame registry: the table is seeded with `undefined → 0`; a fresh
frame id is assigned the current map size (so the first real frame on the
seeded table gets ordinal 1); a repeated sighting returns the cached ordinal
without changing the table; `encodeWithFrameId` produces
`"<ordinal>-<backendId>"` whose only `'-'` is the separator; existing entries
are never changed or dropped and a fresh ordinal exceeds every ordinal already
assigned; `resetFrameOrdinals` reinstalls exactly the seeded table. -/
theorem frameRegistry_ordinals (m : FidMap) (f : String) (backendId : Nat) :
    (fidGet initialFidOrdinals none = some 0 ∧ initialFidOrdinals.length = 1) ∧
    (ordinalForFrameId m none = (0, m)) ∧
    (fidGet m (some f) = none →
      ordinalForFrameId m (some f) = (m.length, m ++ [(some f, m.length)])) ∧
    (fidGet initialFidOrdinals (some f) = none →
      (ordinalForFrameId initialFidOrdinals (some f)).1 = 1) ∧
    (∀ o, fidGet m (some f) = some o → ordinalForFrameId m (some f) = (o, m)) ∧
    ((encodeWithFrameId m (some f) backendId).1 =
        Nat.repr (ordinalForFrameId m (some f)).1 ++ "-" ++ Nat.repr backendId ∧
      dashCount (encodeWithFrameId m (some f) backendId).1 = 1) ∧
    (FidWf m → fidGet m (some f) = none →
      (∀ k v, fidGet m k = some v →
        fidGet (ordinalForFrameId m (some f)).2 k = some v) ∧
      (∀ v ∈ m.map (·.2), v < (ordinalForFrameId m (some f)).1) ∧
      FidWf (ordinalForFrameId m (some f)).2) ∧
    resetFrameOrdinals = initialFidOrdinals := by
  refine ⟨⟨rfl, rfl⟩, rfl, ?_, ?_, ?_, ⟨rfl, ?_⟩, ?_, rfl⟩
  · intro h
    simp [ordinalForFrameId, h]
  · intro h
    simp [ordinalForFrameId, initialFidOrdinals] at h ⊢
    simp [h]
  · intro o h
    simp [ordinalForFrameId, h]
  · show dashCount (Nat.repr (ordinalForFrameId m (some f)).1 ++ "-" ++
      Nat.repr backendId) = 1
    rw [dashCount_append, dashCount_append, dashCount_repr, dashCount_repr]
    rfl
  · intro hwf hnone
    simp only [ordinalForFrameId, hnone]
    exact ⟨fun k v hv => fidGet_append_left m _ k v hv,
      fun v hv => fidWf_values_lt m hwf v hv,
      fidWf_insert m f hwf hnone⟩

/-- Witness for `frameRegistry_ordinals` on the seeded table: the first real
frame id gets ordinal 1 and the table grows to hold it. -/
theorem frameRegistry_ordinals_witness :
    fidGet initialFidOrdinals (some "frameA") = none ∧
    ordinalForFrameId initialFidOrdinals (some "frameA") =
      (1, [(none, 0), (some "frameA", 1)]) ∧
    dashCount (encodeWithFrameId initialFidOrdinals (some "frameA") 42).1 = 1 := by
  refine ⟨by decide, ?_, ?_⟩
  · have h := (frameRegistry_ordinals initialFidOrdinals "frameA" 42).2.2.1 (by decide)
    simpa [initialFidOrdinals] using h
  · exact (frameRegistry_ordinals initialFidOrdinals "frameA" 42).2.2.2.2.2.1.2

/-! ## Recording and action execution (SimplePage.ts lines 182-235, 519-664)

The page's DOM is abstracted as a version counter `dom : Nat`; a driver call
is an arbitrary transformer of it, and `getPageStructure` (hence
`saveSnapshot`) reads the current value. -/

/-- One entry of `pageState.actions`; `snapshot` abstracts the structure and
xpath-map files written by `saveSnapshot` (they capture the page state read at
snapshot time; `none` for `close`, which skips the snapshot). -/
structure RecordedAction where
  kind : String
  snapshot : Option Nat
deriving Repr, DecidableEq

/-- The pieces of SimplePage state that recording touches. -/
structure PageRec where
  dom : Nat
  hasPageState : Bool
  recordingEnabled : Bool
  actions : List RecordedAction
deriving Repr, DecidableEq

/-- SimplePage.ts lines 212-235: return unless `pageState` is set and
recording enabled; except for `close`, `saveSnapshot` (lines 182-210) reads
the *current* page structure; then push the action and save. -/
def recordAction (p : PageRec) (kind : String) : PageRec :=
  if p.hasPageState = false ∨ p.recordingEnabled = false then p
  else
    let snap : Option Nat := if kind = "close" then none else some p.dom
    { p with actions := p.actions ++ [{ kind := kind, snapshot := snap }] }

/-- The driver operation selected by the `actByXPath` dispatch chain. -/
inductive DriverOp
  | fill (v : String)
  | clickForce
  | selectOption (v : String)
  | check
  | uncheck
  | hover
  | press (k : String)
  | evalScrollY (target : String)
  | evalScrollX (target : String)
  | onceDialogAndClick (action : String) (promptText : Option String)
  | setInputFiles (paths : List String)
deriving Repr, DecidableEq

/-- JavaScript truthiness of `args[0]` (a missing entry or `""` is falsy). -/
def truthy : Option String → Bool
  | none => false
  | some "" => false
  | some _ => true

/-- SimplePage.ts lines 524-649: the if/else dispatch chain of `actByXPath`,
in source order; the final `else` throws `Unsupported method: <method>`. -/
def dispatch (method : String) (args : List String) : Except String DriverOp :=
  let a0 := args.head?
  if method = "fill" ∧ truthy a0 = true then .ok (.fill (a0.getD ""))
  else if method = "click" then .ok .clickForce
  else if method = "select" ∧ truthy a0 = true then .ok (.selectOption (a0.getD ""))
  else if method = "check" then .ok .check
  else if method = "uncheck" then .ok .uncheck
  else if method = "hover" then .ok .hover
  else if method = "press" ∧ truthy a0 = true then .ok (.press (a0.getD ""))
  else if method = "scrollY" ∧ truthy a0 = true then .ok (.evalScrollY (a0.getD ""))
  else if method = "scrollX" ∧ truthy a0 = true then .ok (.evalScrollX (a0.getD ""))
  else if method = "handleDialog" ∧ truthy a0 = true then
    .ok (.onceDialogAndClick (a0.getD "") args[1]?)
  else if method = "fileUpload" ∧ args.length > 0 then .ok (.setInputFiles args)
  else .error ("Unsupported method: " ++ method)

/-- The observable outcome of a successful `actByXPath` call. -/
structure ActResult where
  driverOps : List DriverOp
  settled : Bool
  recorded : Bool
deriving Repr, DecidableEq

/-- SimplePage.ts lines 519-664: dispatch; on the `else` branch the error is
thrown before the settle wait and before `recordAction`, so the page record is
returned untouched. On success the driver call runs (`drv` transforms the
page), `_waitForSettledDom` is awaited, and the action is recorded. -/
def actByXPath (method : String) (args : List String) (drv : Nat → Nat)
    (p : PageRec) : Except String ActResult × PageRec :=
  match dispatch method args with
  | .error e => (.error e, p)
  | .ok op =>
    let p1 : PageRec := { p with dom := drv p.dom }
    let p2 := recordAction p1 "act"
    (.ok { driverOps := [op], settled := true, recorded := true }, p2)

/-- C1 counterexample. A click that mutates the page: the snapshot stored with
the recorded action is the post-action page state 1, not the pre-action
state 0 — refuting "the snapshot written alongside the action is the
pre-action accessibility snapshot". -/
theorem recordAction_snapshot_is_post_counterexample :
    (actByXPath "click" [] Nat.succ
        { dom := 0, hasPageState := true, recordingEnabled := true,
          actions := [] }).2.actions =
      [{ kind := "act", snapshot := some 1 }] ∧
    ({ kind := "act", snapshot := some 1 } : RecordedAction) ≠
      { kind := "act", snapshot := some 0 } := by
  constructor
  · rfl
  · decide

/-- C1 amended. For every recorded action of kind other than `close` the
snapshot captures the page state at recording time — for `actByXPath` this is
the state *after* the driver call (and settle wait); `close` records no
snapshot. -/
theorem recordAction_snapshot_is_post (p : PageRec) (kind : String)
    (drv : Nat → Nat) (h1 : p.hasPageState = true)
    (h2 : p.recordingEnabled = true) :
    (kind ≠ "close" →
      (recordAction p kind).actions =
        p.actions ++ [{ kind := kind, snapshot := some p.dom }]) ∧
    (recordAction p "close").actions =
      p.actions ++ [{ kind := "close", snapshot := none }] ∧
    (actByXPath "click" [] drv p).2.actions =
      p.actions ++ [{ kind := "act", snapshot := some (drv p.dom) }] := by
  refine ⟨fun hk => ?_, ?_, ?_⟩
  · simp [recordAction, h1, h2, hk]
  · simp [recordAction, h1, h2]
  · simp [actByXPath, dispatch, truthy, recordAction, h1, h2]

/-- Witness for `recordAction_snapshot_is_post` at a concrete page record. -/
theorem recordAction_snapshot_is_post_witness :
    (recordAction
        { dom := 7, hasPageState := true, recordingEnabled := true,
          actions := [] } "navigate").actions =
      [{ kind := "navigate", snapshot := some 7 }] := by
  have h := (recordAction_snapshot_is_post
    { dom := 7, hasPageState := true, recordingEnabled := true, actions := [] }
    "navigate" id rfl rfl).1 (by decide)
  simpa using h

/-- C10. For `fill`, `select`, `press`, `scrollY`, `scrollX` and
`handleDialog`, an empty args list or an empty first argument falls through
the whole dispatch chain: `actByXPath` throws `Unsupported method: <method>`
with no driver call, no settle wait and no recorded action (the page record is
unchanged). -/
theorem actByXPath_empty_arg_unsupported (method : String) (args : List String)
    (drv : Nat → Nat) (p : PageRec)
    (hm : method = "fill" ∨ method = "select" ∨ method = "press" ∨
      method = "scrollY" ∨ method = "scrollX" ∨ method = "handleDialog")
    (ha : args = [] ∨ args.head? = some "") :
    actByXPath method args drv p =
      (.error ("Unsupported method: " ++ method), p) := by
  have h0 : truthy args.head? = false := by
    rcases ha with h | h
    · simp [h, truthy]
    · simp [h, truthy]
  rcases hm with h | h | h | h | h | h <;>
    subst h <;>
    simp [actByXPath, dispatch, h0]

/-- Witness for `actByXPath_empty_arg_unsupported`: filling with an empty
string is reported as an unsupported method and records nothing. -/
theorem actByXPath_empty_arg_unsupported_witness :
    actByXPath "fill" [""] Nat.succ
        { dom := 0, hasPageState := true, recordingEnabled := true,
          actions := [] } =
      (.error "Unsupported method: fill",
        { dom := 0, hasPageState := true, recordingEnabled := true,
          actions := [] }) := by
  have h := actByXPath_empty_arg_unsupported "fill" [""] Nat.succ
    { dom := 0, hasPageState := true, recordingEnabled := true, actions := [] }
    (Or.inl rfl) (Or.inr rfl)
  simpa using h

/-! ## Encoded-id resolution through process globals
(SimplePage.ts lines 503-516 and 667-680; SimplePageServer.ts lines 347-372) -/

/-- An xpath map `encodedId → xpath`. -/
abbrev XPathMap := List (String × String)

/-- The state `actByEncodedId` and `getPageStructure` interact with: the two
process globals `__simplepage_xpath_map` / `__simplepage_current_page`
(shared by *all* pages of the process), plus the server's per-page
`pageInfo.cachedXPathMap` (SimplePageServer.ts line 360). -/
structure GlobalState where
  globalXPathMap : Option XPathMap
  globalCurrentPage : Option String
  cachedXPathMap : List (String × XPathMap)
deriving Repr, DecidableEq

/-- SimplePage.ts lines 503-516: `getPageStructure` on page `pageId`
producing `xpathMap` overwrites both process globals. -/
def getPageStructure (w : GlobalState) (pageId : String) (xpathMap : XPathMap) :
    GlobalState :=
  { w with globalXPathMap := some xpathMap, globalCurrentPage := some pageId }

/-- SimplePageServer.ts lines 347-372: the `/structure` route calls
`getPageStructure` and stores the map on that page's `cachedXPathMap`. -/
def structureRoute (w : GlobalState) (pageId : String) (xpathMap : XPathMap) :
    GlobalState :=
  let w1 := getPageStructure w pageId xpathMap
  { w1 with cachedXPathMap := aset w1.cachedXPathMap pageId xpathMap }

/-- SimplePage.ts lines 667-680: `actByEncodedId` reads the *process-global*
xpath map — it takes no notice of which page it is called on. -/
def actByEncodedId (w : GlobalState) (encodedId : String) :
    Except String String :=
  match w.globalXPathMap with
  | none => .error "XPath map not available. Run getPageStructure first."
  | some m =>
    match alookup m encodedId with
    | none => .error ("No XPath found for EncodedId: " ++ encodedId)
    | some xpath => .ok xpath

/-- C2 counterexample. Page P snapshots, then page Q snapshots; an
act-by-encoded-id issued for page P now resolves through Q's snapshot (the
last writer of the process global), not through P's own cached map — refuting
"resolved through P's own cached xpath map ... not a snapshot of any other
page". -/
theorem actByEncodedId_global_counterexample :
    (actByEncodedId
        (structureRoute
          (structureRoute
            { globalXPathMap := none, globalCurrentPage := none,
              cachedXPathMap := [] }
            "P" [("0-5", "/html[1]/body[1]/p[1]")])
          "Q" [("0-5", "/html[1]/body[1]/div[1]")])
        "0-5" = .ok "/html[1]/body[1]/div[1]") ∧
    (alookup ((alookup
        (structureRoute
          (structureRoute
            { globalXPathMap := none, globalCurrentPage := none,
              cachedXPathMap := [] }
            "P" [("0-5", "/html[1]/body[1]/p[1]")])
          "Q" [("0-5", "/html[1]/body[1]/div[1]")]).cachedXPathMap "P").getD [])
        "0-5" = some "/html[1]/body[1]/p[1]") ∧
    ("/html[1]/body[1]/div[1]" : String) ≠ "/html[1]/body[1]/p[1]" := by
  refine ⟨rfl, rfl, by decide⟩

/-- C2 amended. `actByEncodedId` resolves the encoded id through the
process-global xpath map, i.e. against the snapshot most recently taken by
*any* page of the process; with no snapshot taken yet it fails with the
"XPath map not available" error, and when the global map lacks the encoded id
it fails with the `No XPath found for EncodedId` error. -/
theorem actByEncodedId_resolves_global (w : GlobalState)
    (pageId otherPage encodedId : String) (m : XPathMap) :
    (actByEncodedId (structureRoute w otherPage m) encodedId =
      match alookup m encodedId with
      | none => .error ("No XPath found for EncodedId: " ++ encodedId)
      | some xpath => .ok xpath) ∧
    (w.globalXPathMap = none →
      actByEncodedId w encodedId =
        .error "XPath map not available. Run getPageStructure first.") ∧
    (w.globalXPathMap = some m → alookup m encodedId = none →
      actByEncodedId w encodedId =
        .error ("No XPath found for EncodedId: " ++ encodedId)) ∧
    (structureRoute w pageId m).globalXPathMap = some m := by
  refine ⟨?_, ?_, ?_, rfl⟩
  · rfl
  · intro h
    simp [actByEncodedId, h]
  · intro h1 h2
    simp [actByEncodedId, h1, h2]

/-- Witness for `actByEncodedId_resolves_global` at a concrete state. -/
theorem actByEncodedId_resolves_global_witness :
    actByEncodedId
        { globalXPathMap := none, globalCurrentPage := none,
          cachedXPathMap := [] } "0-9" =
      .error "XPath map not available. Run getPageStructure first." :=
  (actByEncodedId_resolves_global
    { globalXPathMap := none, globalCurrentPage := none, cachedXPathMap := [] }
    "P" "Q" "0-9" []).2.1 rfl

/-! ## handleDialog (SimplePage.ts lines 628-642) -/

/-- What happens to a dialog during a `handleDialog` action. `noDialog` means
the click never surfaced one (the one-shot handler simply stays pending). -/
inductive DialogOutcome
  | accepted (text : String)
  | dismissed
  | unhandled
  | noDialog
deriving Repr, DecidableEq

/-- The one-shot handler installed by `page.once('dialog', ...)`
(SimplePage.ts lines 633-639): accept with the optional prompt text, dismiss,
or do nothing for any other action string. -/
def onceDialogHandler (action : String) (promptText : Option String) :
    DialogOutcome :=
  if action = "accept" then .accepted (promptText.getD "")
  else if action = "dismiss" then .dismissed
  else .unhandled

/-- SimplePage.ts lines 628-642 followed by 651-663: install the one-shot
handler, click the element, then settle and record. `dialogFires` says whether
the click surfaces a dialog. There is no failure path tied to the dialog: the
branch returns successfully either way. -/
def handleDialogBranch (dialogFires : Bool) (args : List String) :
    Except String (DialogOutcome × ActResult) :=
  let action := args.head?.getD ""
  let promptText := args[1]?
  let outcome := if dialogFires then onceDialogHandler action promptText
    else .noDialog
  .ok (outcome,
    { driverOps := [.onceDialogAndClick action promptText],
      settled := true, recorded := true })

/-- C5 counterexample. A `handleDialog` click that surfaces no dialog within
the settle window completes successfully — there is no `DialogNotFired`
failure, refuting "the action fails with the DialogNotFired error". -/
theorem handleDialog_no_dialog_counterexample :
    handleDialogBranch false ["accept"] =
      .ok (.noDialog,
        { driverOps := [.onceDialogAndClick "accept" none],
          settled := true, recorded := true }) ∧
    (handleDialogBranch false ["accept"]).isOk = true := by
  exact ⟨rfl, rfl⟩

/-- C5 amended. When the clicked element surfaces no dialog, `handleDialog`
still completes successfully: the click runs, the settle wait happens, the
action is recorded, and no error (in particular no `DialogNotFired`) is
raised — the source never synthesizes such an error. -/
theorem handleDialog_no_dialog_success (args : List String) (fires : Bool) :
    (handleDialogBranch false args =
      .ok (.noDialog,
        { driverOps := [.onceDialogAndClick (args.head?.getD "") args[1]?],
          settled := true, recorded := true })) ∧
    ∀ e : String, handleDialogBranch fires args ≠ .error e := by
  refine ⟨rfl, fun e h => by simp [handleDialogBranch] at h⟩

/-- Witness for `handleDialog_no_dialog_success` at a concrete dismiss call. -/
theorem handleDialog_no_dialog_success_witness :
    handleDialogBranch false ["dismiss"] =
      .ok (.noDialog,
        { driverOps := [.onceDialogAndClick "dismiss" none],
          settled := true, recorded := true }) :=
  (handleDialog_no_dialog_success ["dismiss"] false).1

/-! ## Scroll actions (SimplePage.ts lines 538-627)

The page scripts evaluated on the element read `el.tagName` and either
manipulate `window.scrollTo`/`scrollBy` (plus `document.documentElement`
dimensions) when the element is `<body>`, or the element's own
`scrollTop`/`scrollLeft`/`scrollHeight`/`scrollWidth` otherwise. -/

/-- The scroll-relevant state visible to the evaluated scripts. -/
structure Surface where
  isBody : Bool
  scrollTop : Int
  scrollLeft : Int
  scrollHeight : Int
  scrollWidth : Int
  winX : Int
  winY : Int
  docScrollHeight : Int
  docScrollWidth : Int
deriving Repr, DecidableEq

/-- `window.scrollTo(x, y)`. -/
def windowScrollTo (s : Surface) (x y : Int) : Surface :=
  { s with winX := x, winY := y }

/-- `window.scrollBy(dx, dy)`. -/
def windowScrollBy (s : Surface) (dx dy : Int) : Surface :=
  { s with winX := s.winX + dx, winY := s.winY + dy }

/-- The surface's vertical scroll position (window for `<body>`, the
element's own `scrollTop` otherwise). -/
def vertPos (s : Surface) : Int := if s.isBody then s.winY else s.scrollTop

/-- The surface's horizontal scroll position. -/
def horizPos (s : Surface) : Int := if s.isBody then s.winX else s.scrollLeft

/-- The surface's scroll height (`document.documentElement.scrollHeight` for
`<body>`, `el.scrollHeight` otherwise). -/
def surfScrollHeight (s : Surface) : Int :=
  if s.isBody then s.docScrollHeight else s.scrollHeight

/-- The surface's scroll width. -/
def surfScrollWidth (s : Surface) : Int :=
  if s.isBody then s.docScrollWidth else s.scrollWidth

/-- Decimal value of the leading digit run, if any. -/
def digitsPrefixVal (l : List Char) : Option Nat :=
  let ds := l.takeWhile (fun c => c.isDigit)
  if ds = [] then none
  else some (ds.foldl (fun a c => a * 10 + (c.toNat - 48)) 0)

/-- JavaScript `parseInt` restricted to base-10 integer literals: optional
sign followed by a digit run; `none` models `NaN`. -/
def jsParseInt (str : String) : Option Int :=
  match str.toList with
  | '-' :: rest => (digitsPrefixVal rest).map (fun n => -(n : Int))
  | '+' :: rest => (digitsPrefixVal rest).map (fun n => (n : Int))
  | chars => (digitsPrefixVal chars).map (fun n => (n : Int))

/-- SimplePage.ts lines 538-582: the `scrollY` branch. `"top"` and
`"bottom"` run dedicated scripts; otherwise `parseInt(target)` picks relative
(`> 0`) or absolute (`Math.abs`) scrolling. A `NaN` pixel count (the page
script would then do NaN arithmetic) is out of scope and returns `none`. -/
def scrollYEval (target : String) (s : Surface) : Option Surface :=
  if target = "top" then
    some (if s.isBody then windowScrollTo s 0 0 else { s with scrollTop := 0 })
  else if target = "bottom" then
    some (if s.isBody then windowScrollTo s 0 s.docScrollHeight
      else { s with scrollTop := s.scrollHeight })
  else
    match jsParseInt target with
    | none => none
    | some px =>
      if 0 < px then
        some (if s.isBody then windowScrollBy s 0 px
          else { s with scrollTop := s.scrollTop + px })
      else
        some (if s.isBody then windowScrollTo s 0 |px|
          else { s with scrollTop := |px| })

/-- SimplePage.ts lines 583-627: the `scrollX` branch, symmetric to
`scrollY` (`window.scrollTo(0, window.scrollY)` for `"left"`, etc.). -/
def scrollXEval (target : String) (s : Surface) : Option Surface :=
  if target = "left" then
    some (if s.isBody then windowScrollTo s 0 s.winY
      else { s with scrollLeft := 0 })
  else if target = "right" then
    some (if s.isBody then windowScrollTo s s.docScrollWidth s.winY
      else { s with scrollLeft := s.scrollWidth })
  else
    match jsParseInt target with
    | none => none
    | some px =>
      if 0 < px then
        some (if s.isBody then windowScrollBy s px 0
          else { s with scrollLeft := s.scrollLeft + px })
      else
        some (if s.isBody then windowScrollTo s |px| s.winY
          else { s with scrollLeft := |px| })

/-- The right surface is scrolled: for `<body>` the element fields are left
alone (the window moves); otherwise the window fields are left alone. -/
def usesOwnSurface (s s' : Surface) : Prop :=
  s'.isBody = s.isBody ∧
  (s.isBody = true → s'.scrollTop = s.scrollTop ∧ s'.scrollLeft = s.scrollLeft) ∧
  (s.isBody = false → s'.winX = s.winX ∧ s'.winY = s.winY)

/-- C7. `scrollY`: `"top"` sets the surface's vertical position to 0,
`"bottom"` to its scrollHeight, a positive integer advances it by that many
pixels, a negative integer sets the absolute position to its magnitude; the
`scrollX` variants (`"left"`/`"right"`/positive/negative) are symmetric; in
every case the window is scrolled exactly when the element is `<body>` and
the element's own `scrollTop`/`scrollLeft` is used otherwise. -/
theorem scroll_actions (s : Surface) :
    (∀ s', scrollYEval "top" s = some s' →
      vertPos s' = 0 ∧ usesOwnSurface s s') ∧
    (∀ s', scrollYEval "bottom" s = some s' →
      vertPos s' = surfScrollHeight s ∧ usesOwnSurface s s') ∧
    (∀ t n s', jsParseInt t = some n → 0 < n → scrollYEval t s = some s' →
      vertPos s' = vertPos s + n ∧ usesOwnSurface s s') ∧
    (∀ t n s', jsParseInt t = some n → n < 0 → scrollYEval t s = some s' →
      vertPos s' = -n ∧ usesOwnSurface s s') ∧
    (∀ s', scrollXEval "left" s = some s' →
      horizPos s' = 0 ∧ usesOwnSurface s s') ∧
    (∀ s', scrollXEval "right" s = some s' →
      horizPos s' = surfScrollWidth s ∧ usesOwnSurface s s') ∧
    (∀ t n s', jsParseInt t = some n → 0 < n → scrollXEval t s = some s' →
      horizPos s' = horizPos s + n ∧ usesOwnSurface s s') ∧
    (∀ t n s', jsParseInt t = some n → n < 0 → scrollXEval t s = some s' →
      horizPos s' = -n ∧ usesOwnSurface s s') := by
  have hTop : jsParseInt "top" = none := by decide
  have hBottom : jsParseInt "bottom" = none := by decide
  have hLeft : jsParseInt "left" = none := by decide
  have hRight : jsParseInt "right" = none := by decide
  refine ⟨?_, ?_, ?_, ?_, ?_, ?_, ?_, ?_⟩
  · intro s' h
    simp only [scrollYEval, if_pos rfl] at h
    injection h with h
    subst h
    by_cases hb : s.isBody <;>
      simp [hb, vertPos, windowScrollTo, usesOwnSurface]
  · intro s' h
    rw [scrollYEval, if_neg (by decide), if_pos rfl] at h
    injection h with h
    subst h
    by_cases hb : s.isBody <;>
      simp [hb, vertPos, surfScrollHeight, windowScrollTo, usesOwnSurface]
  · intro t n s' hp hn h
    have ht : ¬ t = "top" := by rintro rfl; rw [hTop] at hp; cases hp
    have hbt : ¬ t = "bottom" := by rintro rfl; rw [hBottom] at hp; cases hp
    rw [scrollYEval, if_neg ht, if_neg hbt, hp] at h
    simp only [if_pos hn] at h
    injection h with h
    subst h
    by_cases hb : s.isBody <;>
      simp [hb, vertPos, windowScrollBy, usesOwnSurface]
  · intro t n s' hp hn h
    have ht : ¬ t = "top" := by rintro rfl; rw [hTop] at hp; cases hp
    have hbt : ¬ t = "bottom" := by rintro rfl; rw [hBottom] at hp; cases hp
    rw [scrollYEval, if_neg ht, if_neg hbt, hp] at h
    simp only [if_neg (by omega : ¬ 0 < n)] at h
    injection h with h
    subst h
    have habs : |n| = -n := abs_of_neg hn
    by_cases hb : s.isBody <;>
      simp [hb, vertPos, windowScrollTo, usesOwnSurface, habs]
  · intro s' h
    simp only [scrollXEval, if_pos rfl] at h
    injection h with h
    subst h
    by_cases hb : s.isBody <;>
      simp [hb, horizPos, windowScrollTo, usesOwnSurface]
  · intro s' h
    rw [scrollXEval, if_neg (by decide), if_pos rfl] at h
    injection h with h
    subst h
    by_cases hb : s.isBody <;>
      simp [hb, horizPos, surfScrollWidth, windowScrollTo, usesOwnSurface]
  · intro t n s' hp hn h
    have ht : ¬ t = "left" := by rintro rfl; rw [hLeft] at hp; cases hp
    have hbt : ¬ t = "right" := by rintro rfl; rw [hRight] at hp; cases hp
    rw [scrollXEval, if_neg ht, if_neg hbt, hp] at h
    simp only [if_pos hn] at h
    injection h with h
    subst h
    by_cases hb : s.isBody <;>
      simp [hb, horizPos, windowScrollBy, usesOwnSurface]
  · intro t n s' hp hn h
    have ht : ¬ t = "left" := by rintro rfl; rw [hLeft] at hp; cases hp
    have hbt : ¬ t = "right" := by rintro rfl; rw [hRight] at hp; cases hp
    rw [scrollXEval, if_neg ht, if_neg hbt, hp] at h
    simp only [if_neg (by omega : ¬ 0 < n)] at h
    injection h with h
    subst h
    have habs : |n| = -n := abs_of_neg hn
    by_cases hb : s.isBody <;>
      simp [hb, horizPos, windowScrollTo, usesOwnSurface, habs]

/-- Concrete non-body surface used as witness input. -/
def exampleSurface : Surface :=
  { isBody := false, scrollTop := 10, scrollLeft := 2, scrollHeight := 300,
    scrollWidth := 400, winX := 1, winY := 2, docScrollHeight := 1000,
    docScrollWidth := 2000 }

/-- Witness for `scroll_actions` at a concrete non-body surface: scrolling
down by 25 pixels advances `scrollTop` from 10 to 35. -/
theorem scroll_actions_witness :
    vertPos { exampleSurface with scrollTop := 35 } =
      vertPos exampleSurface + 25 := by
  have h := (scroll_actions exampleSurface).2.2.1 "25" 25
    { exampleSurface with scrollTop := 35 } (by decide) (by decide) (by decide)
  exact h.1

/-! ## Recording deletion (SimplePage.ts lines 970-1041)

The on-disk recording is modelled as the in-memory action log, the list of
file names present in the `data/` directory, and the log persisted in
`actions.json`. -/

/-- The artifact references an `actions.json` entry can carry; `structureFile`
and `xpathMapFile` stand for the source fields `structure` and `xpathMap`. -/
structure RecAction where
  screenshot : Option String
  structureFile : Option String
  xpathMapFile : Option String
  listFile : Option String
  elementFile : Option String
deriving Repr, DecidableEq

/-- The artifact files an entry references (in source deletion order). -/
def refs (a : RecAction) : List String :=
  [a.screenshot, a.structureFile, a.xpathMapFile, a.listFile,
    a.elementFile].filterMap id

/-- Recorder state: `hasPageState` is `pageState !== null && pageDir !== null`,
`files` the data-directory contents, `savedActions` the `actions.json`
contents. -/
structure RecState where
  hasPageState : Bool
  actions : List RecAction
  files : List String
  savedActions : List RecAction
deriving Repr, DecidableEq

/-- SimplePage.ts lines 970-1041: bail out with `false` when state is missing
or the index is out of range; otherwise unlink each referenced artifact that
exists (`existsSync` guard: missing files are skipped), splice the entry out,
rewrite `actions.json`, and return `true`. -/
def deleteAction (st : RecState) (index : Int) : Bool × RecState :=
  if st.hasPageState = false then (false, st)
  else if index < 0 ∨ (st.actions.length : Int) ≤ index then (false, st)
  else
    match st.actions[index.toNat]? with
    | none => (false, st)
    | some a =>
      let actions' := st.actions.eraseIdx index.toNat
      (true,
        { st with
          actions := actions',
          files := st.files.filter (fun f => ¬ f ∈ refs a),
          savedActions := actions' })

/-- C9. `deleteAction` with an out-of-range index returns `false` and changes
nothing; with a valid index it removes exactly the entry at that index,
removes from the data directory exactly the files that entry references
(missing referenced files are a no-op), persists the shortened log, and
returns `true`. -/
theorem deleteAction_spec (st : RecState) (index : Int) :
    ((index < 0 ∨ (st.actions.length : Int) ≤ index) →
      deleteAction st index = (false, st)) ∧
    (∀ a, st.hasPageState = true → 0 ≤ index →
      index < (st.actions.length : Int) →
      st.actions[index.toNat]? = some a →
      (deleteAction st index).1 = true ∧
      (deleteAction st index).2.actions = st.actions.eraseIdx index.toNat ∧
      (∀ f, f ∈ (deleteAction st index).2.files ↔
        f ∈ st.files ∧ f ∉ refs a) ∧
      (deleteAction st index).2.savedActions =
        st.actions.eraseIdx index.toNat ∧
      (deleteAction st index).2.hasPageState = st.hasPageState) := by
  constructor
  · intro h
    unfold deleteAction
    by_cases hs : st.hasPageState = false
    · simp [hs]
    · simp [hs, h]
  · intro a hs h0 hlen hget
    have hrange : ¬ (index < 0 ∨ (st.actions.length : Int) ≤ index) := by omega
    have hd : deleteAction st index =
        (true,
          { st with
            actions := st.actions.eraseIdx index.toNat,
            files := st.files.filter (fun f => ¬ f ∈ refs a),
            savedActions := st.actions.eraseIdx index.toNat }) := by
      unfold deleteAction
      rw [if_neg (by simp [hs]), if_neg hrange, hget]
    rw [hd]
    refine ⟨rfl, rfl, fun f => ?_, rfl, rfl⟩
    simp [List.mem_filter]

/-- A sample `actions.json` entry referencing two artifact files. -/
def exampleRecAction : RecAction :=
  { screenshot := none, structureFile := some "1-structure.txt",
    xpathMapFile := some "1-xpath.json", listFile := none,
    elementFile := none }

/-- A sample one-entry recording with one unrelated file on disk. -/
def exampleRecState : RecState :=
  { hasPageState := true, actions := [exampleRecAction],
    files := ["1-structure.txt", "1-xpath.json", "other.log"],
    savedActions := [exampleRecAction] }

/-- Witness for `deleteAction_spec`: deleting entry 0 of a one-entry log
succeeds and leaves the unrelated file behind. -/
theorem deleteAction_spec_witness :
    (deleteAction exampleRecState 0).1 = true ∧
    "other.log" ∈ (deleteAction exampleRecState 0).2.files := by
  have h := (deleteAction_spec exampleRecState 0).2 exampleRecAction rfl
    (by decide) (by decide) rfl
  exact ⟨h.1, (h.2.2.1 "other.log").mpr (by decide)⟩

/-! ## HTTP status mapping (SimplePageServer.ts registerRoutes)

Each route handler is modelled by the status code it answers with. The
handlers wrap their bodies in `try/catch` where the catch answers 500 with
the thrown error's message. -/

/-- SimplePageServer.ts lines 228-236 with 1168-1179: the DELETE
`/api/pages/:pageId` handler calls `closePage`, which *throws*
`'Page not found'` for an unknown id; the catch-all answers 500. A present
page closes successfully and answers 200 (`res.json`). -/
def deletePageRoute (pages : List String) (pageId : String) : Nat :=
  if pageId ∈ pages then 200 else 500

/-- SimplePageServer.ts lines 375-398: the POST `/api/pages/:pageId/act-xpath`
handler answers 400 when `xpath` or `method` is falsy, 404 when the page id is
not in the manager's map, and otherwise runs `actByXPath`; a thrown error
(e.g. `Unsupported method`, or a driver timeout) is caught and answered
with 500. -/
def actXPathRoute (pages : List String) (pageId : String)
    (xpath method : Option String) (args : List String) : Nat :=
  if truthy xpath = false ∨ truthy method = false then 400
  else if ¬ pageId ∈ pages then 404
  else
    match dispatch (method.getD "") args with
    | .error _ => 500
    | .ok _ => 200

/-- C8 counterexample. A DELETE for an unknown page id is answered 500, not
404 (`closePage` throws and the generic catch maps it to 500); and an
unsupported method on an existing page is answered 500, not 400. This refutes
"every request naming a page id not present ... is answered with status 404"
and "UnsupportedMethod ... yields 400 ... never a generic 500". -/
theorem statusMapping_counterexample :
    deletePageRoute [] "nonexistent" = 500 ∧ (500 : Nat) ≠ 404 ∧
    actXPathRoute ["p1"] "p1" (some "//body") (some "bogusMethod") [] = 500 ∧
    (500 : Nat) ≠ 400 := by
  refine ⟨rfl, by decide, rfl, by decide⟩

/-- C8 amended. Routes that look the page up inline (such as act-xpath)
answer 404 for an unknown page id, but DELETE `/api/pages/:pageId` answers
500 for an unknown id because the not-found condition is thrown inside
`closePage` and caught generically; errors thrown by the action layer —
including `Unsupported method` — are likewise answered 500, never 400, and no
408/504 mapping exists in these handlers (the only statuses produced are
200/400/404/500). -/
theorem statusMapping_routes (pages : List String) (pageId : String)
    (xpath method : Option String) (args : List String) :
    (¬ pageId ∈ pages → deletePageRoute pages pageId = 500) ∧
    (pageId ∈ pages → deletePageRoute pages pageId = 200) ∧
    (truthy xpath = true → truthy method = true → ¬ pageId ∈ pages →
      actXPathRoute pages pageId xpath method args = 404) ∧
    (truthy xpath = false ∨ truthy method = false →
      actXPathRoute pages pageId xpath method args = 400) ∧
    (∀ e, truthy xpath = true → truthy method = true → pageId ∈ pages →
      dispatch (method.getD "") args = .error e →
      actXPathRoute pages pageId xpath method args = 500) ∧
    (deletePageRoute pages pageId = 200 ∨
      deletePageRoute pages pageId = 500) ∧
    (actXPathRoute pages pageId xpath method args = 200 ∨
      actXPathRoute pages pageId xpath method args = 400 ∨
      actXPathRoute pages pageId xpath method args = 404 ∨
      actXPathRoute pages pageId xpath method args = 500) := by
  refine ⟨?_, ?_, ?_, ?_, ?_, ?_, ?_⟩
  · intro h; simp [deletePageRoute, h]
  · intro h; simp [deletePageRoute, h]
  · intro hx hm h
    simp [actXPathRoute, hx, hm, h]
  · intro h
    simp [actXPathRoute, h]
  · intro e hx hm h hd
    simp [actXPathRoute, hx, hm, h, hd]
  · by_cases h : pageId ∈ pages <;> simp [deletePageRoute, h]
  · by_cases h1 : truthy xpath = false ∨ truthy method = false
    · simp [actXPathRoute, h1]
    · by_cases h2 : pageId ∈ pages
      · rcases hd : dispatch (method.getD "") args with e | op <;>
          simp [actXPathRoute, h1, h2, hd]
      · simp [actXPathRoute, h1, h2]

/-- Witness for `statusMapping_routes`: act-xpath on an unknown page id
answers 404. -/
theorem statusMapping_routes_witness :
    actXPathRoute ["p1"] "p2" (some "//body") (some "click") [] = 404 :=
  (statusMapping_routes ["p1"] "p2" (some "//body") (some "click") []).2.2.1
    rfl rfl (by decide)

/-! ## Quiescence detector (SimplePage.ts lines 1100-1210)

The promise body is modelled as a labelled transition system. Node's event
loop delivers network/page events only while the corresponding listener is
subscribed, fires a timer only while it is armed and exactly at its deadline,
and time may not pass an armed deadline without the timer firing. -/

/-- The resource types the detector distinguishes
(`p.type` of `Network.requestWillBeSent`). -/
inductive RType
  | document
  | websocket
  | eventSource
  | other
deriving Repr, DecidableEq

/-- The 500 ms quiet window (SimplePage.ts line 1136). -/
def quietWindowMs : Nat := 500

/-- The 2 s stall age (`now - m.start > 2_000`, SimplePage.ts line 1180). -/
def stallAgeMs : Nat := 2000

/-- The 500 ms sweep interval (`setInterval(..., 500)`, line 1187). -/
def sweepIntervalMs : Nat := 500

/-- `this.domSettleTimeoutMs` (SimplePage.ts line 50). -/
def domSettleTimeoutMs : Nat := 30000

/-- `timeoutMs ?? this.domSettleTimeoutMs` (SimplePage.ts line 1101). -/
def settleTimeout (timeoutMs : Option Nat) : Nat :=
  timeoutMs.getD domSettleTimeoutMs

/-- The six event subscriptions installed at lines 1170-1175. -/
def networkHandlers : List String :=
  ["Network.requestWillBeSent", "Network.loadingFinished",
    "Network.loadingFailed", "Network.requestServedFromCache",
    "Network.responseReceived", "Page.frameStoppedLoading"]

/-- The mutable state of one `_waitForSettledDom` invocation. `quietDeadline`
is the absolute fire time of the armed quiet timer, `guardOn` says the guard
timer (deadline `timeout`) is armed, `handlers` the still-subscribed event
listeners, and `resolveCount` counts executions of `resolveDone`. -/
structure SettleState where
  now : Nat
  timeout : Nat
  inflight : List String
  meta : List (String × Nat)
  docByFrame : List (String × String)
  handlers : List String
  quietDeadline : Option Nat
  sweepOn : Bool
  guardOn : Bool
  resolved : Bool
  resolveCount : Nat
deriving Repr, DecidableEq

/-- `clearQuiet` (lines 1127-1132). -/
def clearQuiet (s : SettleState) : SettleState :=
  { s with quietDeadline := none }

/-- `maybeQuiet` (lines 1134-1137): start the 500 ms quiet timer when no
request is in flight and no quiet timer is armed. -/
def maybeQuiet (s : SettleState) : SettleState :=
  if s.inflight = [] ∧ s.quietDeadline = none then
    { s with quietDeadline := some (s.now + quietWindowMs) }
  else s

/-- `finishReq` (lines 1139-1146): bail out unless the id is inflight; drop
it from `inflight`, `meta` and `docByFrame`, then `clearQuiet(); maybeQuiet()`. -/
def finishReq (s : SettleState) (id : String) : SettleState :=
  if id ∈ s.inflight then
    maybeQuiet (clearQuiet
      { s with
        inflight := s.inflight.filter (fun x => ¬ x = id),
        meta := s.meta.filter (fun e => ¬ e.1 = id),
        docByFrame := s.docByFrame.filter (fun e => ¬ e.2 = id) })
  else s

/-- `Set.add` (requests can be re-announced on redirects). -/
def addId (l : List String) (id : String) : List String :=
  if id ∈ l then l else l ++ [id]

/-- `onRequest` (lines 1148-1158): ignore WebSocket/EventSource; add to
`inflight`, record `meta` start time; map the frame for Document requests;
cancel any pending quiet timer. -/
def onRequest (s : SettleState) (id : String) (typ : RType)
    (frameId : Option String) : SettleState :=
  if typ = .websocket ∨ typ = .eventSource then s
  else
    clearQuiet
      { s with
        inflight := addId s.inflight id,
        meta := aset s.meta id s.now,
        docByFrame :=
          if typ = .document then
            match frameId with
            | some f => aset s.docByFrame f id
            | none => s.docByFrame
          else s.docByFrame }

/-- `onDataUrl` (lines 1162-1163): a `data:` response completes the request. -/
def onDataUrl (s : SettleState) (id : String) (url : String) : SettleState :=
  if url.startsWith "data:" then finishReq s id else s

/-- `onFrameStop` (lines 1165-1168). -/
def onFrameStop (s : SettleState) (f : String) : SettleState :=
  match alookup s.docByFrame f with
  | some id => finishReq s id
  | none => s

/-- Whether a meta entry counts as stalled: `now - m.start > 2_000`
(line 1180) — strictly greater. -/
def stalled (now : Nat) (e : String × Nat) : Bool :=
  decide (stallAgeMs < now - e.2)

/-- The `setInterval` body (lines 1177-1187): drop every stalled request from
`inflight` and `meta`, then `maybeQuiet()`. -/
def stalledRequestSweep (s : SettleState) : SettleState :=
  let stale := (s.meta.filter (stalled s.now)).map (·.1)
  maybeQuiet
    { s with
      inflight := s.inflight.filter (fun id => ¬ id ∈ stale),
      meta := s.meta.filter (fun e => ¬ stalled s.now e = true) }

/-- `resolveDone` (lines 1197-1208): unsubscribe the six handlers, clear the
quiet timer, the sweep interval and the guard, and resolve. -/
def resolveDone (s : SettleState) : SettleState :=
  { s with
    handlers := [],
    quietDeadline := none,
    sweepOn := false,
    guardOn := false,
    resolved := true,
    resolveCount := s.resolveCount + 1 }

/-- The state right after the promise body ran (lines 1119-1195): empty
bookkeeping, all six handlers subscribed, sweep interval armed, `maybeQuiet()`
called once (line 1189, arming the quiet timer since nothing is inflight),
guard armed at `timeout`. -/
def initSettle (timeoutMs : Option Nat) : SettleState :=
  maybeQuiet
    { now := 0, timeout := settleTimeout timeoutMs, inflight := [], meta := [],
      docByFrame := [], handlers := networkHandlers, quietDeadline := none,
      sweepOn := true, guardOn := true, resolved := false, resolveCount := 0 }

/-- Events the event loop can deliver to one settle wait. -/
inductive SEvent
  | tick (dt : Nat)
  | request (id : String) (typ : RType) (frameId : Option String)
  | loadingFinished (id : String)
  | loadingFailed (id : String)
  | servedFromCache (id : String)
  | responseReceived (id : String) (url : String)
  | frameStoppedLoading (f : String)
  | sweepTick
  | quietFire
  | guardFire
deriving Repr, DecidableEq

/-- Time may not silently pass an armed timer deadline. -/
def deadlineOk (s : SettleState) (t : Nat) : Bool :=
  (match s.quietDeadline with
    | some d => decide (t ≤ d)
    | none => true) &&
  (if s.guardOn then decide (t ≤ s.timeout) else true)

/-- One event-loop step of a settle wait. Listener steps require the listener
to still be subscribed; timer steps require the timer to be armed and fire
exactly at their deadline. -/
inductive Step : SettleState → SEvent → SettleState → Prop
  | tick (s : SettleState) (dt : Nat) (h : deadlineOk s (s.now + dt) = true) :
      Step s (.tick dt) { s with now := s.now + dt }
  | request (s : SettleState) (id : String) (typ : RType)
      (frameId : Option String)
      (h : "Network.requestWillBeSent" ∈ s.handlers) :
      Step s (.request id typ frameId) (onRequest s id typ frameId)
  | loadingFinished (s : SettleState) (id : String)
      (h : "Network.loadingFinished" ∈ s.handlers) :
      Step s (.loadingFinished id) (finishReq s id)
  | loadingFailed (s : SettleState) (id : String)
      (h : "Network.loadingFailed" ∈ s.handlers) :
      Step s (.loadingFailed id) (finishReq s id)
  | servedFromCache (s : SettleState) (id : String)
      (h : "Network.requestServedFromCache" ∈ s.handlers) :
      Step s (.servedFromCache id) (finishReq s id)
  | responseReceived (s : SettleState) (id : String) (url : String)
      (h : "Network.responseReceived" ∈ s.handlers) :
      Step s (.responseReceived id url) (onDataUrl s id url)
  | frameStoppedLoading (s : SettleState) (f : String)
      (h : "Page.frameStoppedLoading" ∈ s.handlers) :
      Step s (.frameStoppedLoading f) (onFrameStop s f)
  | sweepTick (s : SettleState) (h : s.sweepOn = true) :
      Step s .sweepTick (stalledRequestSweep s)
  | quietFire (s : SettleState) (h : s.quietDeadline = some s.now) :
      Step s .quietFire (resolveDone s)
  | guardFire (s : SettleState) (h1 : s.guardOn = true)
      (h2 : s.now = s.timeout) :
      Step s .guardFire (resolveDone s)

/-- States reachable by one `_waitForSettledDom(timeoutMs)` invocation. -/
inductive Reach (timeoutMs : Option Nat) : SettleState → Prop
  | init : Reach timeoutMs (initSettle timeoutMs)
  | step (s s' : SettleState) (e : SEvent) :
      Reach timeoutMs s → Step s e s' → Reach timeoutMs s'

/-- The settle-wait invariant: until resolution the six handlers stay
subscribed and the sweep and guard timers stay armed with nothing resolved
yet and time within the deadline; after resolution everything is unsubscribed
and cleared and `resolveDone` ran exactly once; an armed quiet timer implies
an empty inflight set and a fire time at most one quiet window away. -/
def Inv (s : SettleState) : Prop :=
  (s.resolved = false →
    s.handlers = networkHandlers ∧ s.sweepOn = true ∧ s.guardOn = true ∧
    s.resolveCount = 0 ∧ s.now ≤ s.timeout) ∧
  (s.resolved = true →
    s.handlers = [] ∧ s.quietDeadline = none ∧ s.sweepOn = false ∧
    s.guardOn = false ∧ s.resolveCount = 1) ∧
  (∀ d, s.quietDeadline = some d →
    s.inflight = [] ∧ s.now ≤ d ∧ d ≤ s.now + quietWindowMs)

theorem maybeQuiet_timeout (s : SettleState) :
    (maybeQuiet s).timeout = s.timeout := by
  unfold maybeQuiet; split <;> rfl

theorem maybeQuiet_resolved (s : SettleState) :
    (maybeQuiet s).resolved = s.resolved := by
  unfold maybeQuiet; split <;> rfl

theorem maybeQuiet_now (s : SettleState) : (maybeQuiet s).now = s.now := by
  unfold maybeQuiet; split <;> rfl

theorem maybeQuiet_inflight (s : SettleState) :
    (maybeQuiet s).inflight = s.inflight := by
  unfold maybeQuiet; split <;> rfl

theorem maybeQuiet_meta (s : SettleState) : (maybeQuiet s).meta = s.meta := by
  unfold maybeQuiet; split <;> rfl

theorem finishReq_timeout (s : SettleState) (id : String) :
    (finishReq s id).timeout = s.timeout := by
  unfold finishReq
  split
  · rw [maybeQuiet_timeout]; rfl
  · rfl

theorem finishReq_resolved (s : SettleState) (id : String) :
    (finishReq s id).resolved = s.resolved := by
  unfold finishReq
  split
  · rw [maybeQuiet_resolved]; rfl
  · rfl

theorem finishReq_now (s : SettleState) (id : String) :
    (finishReq s id).now = s.now := by
  unfold finishReq
  split
  · rw [maybeQuiet_now]; rfl
  · rfl

theorem onRequest_timeout (s : SettleState) (id : String) (typ : RType)
    (frameId : Option String) : (onRequest s id typ frameId).timeout = s.timeout := by
  unfold onRequest
  split <;> rfl

theorem onRequest_resolved (s : SettleState) (id : String) (typ : RType)
    (frameId : Option String) : (onRequest s id typ frameId).resolved = s.resolved := by
  unfold onRequest
  split <;> rfl

theorem onRequest_now (s : SettleState) (id : String) (typ : RType)
    (frameId : Option String) : (onRequest s id typ frameId).now = s.now := by
  unfold onRequest
  split <;> rfl

theorem onRequest_quietDeadline (s : SettleState) (id : String) (typ : RType)
    (frameId : Option String)
    (h : ¬ (typ = .websocket ∨ typ = .eventSource)) :
    (onRequest s id typ frameId).quietDeadline = none := by
  unfold onRequest
  rw [if_neg h]
  rfl

theorem onDataUrl_timeout (s : SettleState) (id url : String) :
    (onDataUrl s id url).timeout = s.timeout := by
  unfold onDataUrl
  split
  · rw [finishReq_timeout]
  · rfl

theorem onDataUrl_resolved (s : SettleState) (id url : String) :
    (onDataUrl s id url).resolved = s.resolved := by
  unfold onDataUrl
  split
  · rw [finishReq_resolved]
  · rfl

theorem onDataUrl_now (s : SettleState) (id url : String) :
    (onDataUrl s id url).now = s.now := by
  unfold onDataUrl
  split
  · rw [finishReq_now]
  · rfl

theorem onFrameStop_timeout (s : SettleState) (f : String) :
    (onFrameStop s f).timeout = s.timeout := by
  unfold onFrameStop
  split
  · rw [finishReq_timeout]
  · rfl

theorem onFrameStop_resolved (s : SettleState) (f : String) :
    (onFrameStop s f).resolved = s.resolved := by
  unfold onFrameStop
  split
  · rw [finishReq_resolved]
  · rfl

theorem onFrameStop_now (s : SettleState) (f : String) :
    (onFrameStop s f).now = s.now := by
  unfold onFrameStop
  split
  · rw [finishReq_now]
  · rfl

theorem sweep_timeout (s : SettleState) :
    (stalledRequestSweep s).timeout = s.timeout := by
  unfold stalledRequestSweep
  rw [maybeQuiet_timeout]

theorem sweep_resolved (s : SettleState) :
    (stalledRequestSweep s).resolved = s.resolved := by
  unfold stalledRequestSweep
  rw [maybeQuiet_resolved]

theorem sweep_now (s : SettleState) :
    (stalledRequestSweep s).now = s.now := by
  unfold stalledRequestSweep
  rw [maybeQuiet_now]

theorem Inv_maybeQuiet (s : SettleState) (h : Inv s)
    (hr : s.resolved = false) : Inv (maybeQuiet s) := by
  obtain ⟨h1, h2, h3⟩ := h
  unfold maybeQuiet
  split
  · next hc =>
    refine ⟨fun _ => h1 hr, fun hres => ?_, fun d hd => ?_⟩
    · have hres' : s.resolved = true := hres
      simp [hr] at hres'
    · have hd' : some (s.now + quietWindowMs) = some d := hd
      have hdd : s.now + quietWindowMs = d := by injection hd'
      refine ⟨hc.1, ?_, ?_⟩
      · show s.now ≤ d
        omega
      · show d ≤ s.now + quietWindowMs
        omega
  · exact ⟨h1, h2, h3⟩

theorem Inv_clearQuiet (s : SettleState) (h : Inv s) : Inv (clearQuiet s) := by
  obtain ⟨h1, h2, h3⟩ := h
  refine ⟨fun hr => h1 hr, fun hr => ?_, fun d hd => ?_⟩
  · have h2' := h2 hr
    exact ⟨h2'.1, rfl, h2'.2.2.1, h2'.2.2.2.1, h2'.2.2.2.2⟩
  · have hd' : (none : Option Nat) = some d := hd
    cases hd'

theorem Inv_filterUpdate (s : SettleState) (p : String → Bool)
    (m' : List (String × Nat)) (d' : List (String × String)) (h : Inv s) :
    Inv
      { s with
        inflight := s.inflight.filter p, meta := m', docByFrame := d' } := by
  obtain ⟨h1, h2, h3⟩ := h
  refine ⟨fun hr => h1 hr, fun hr => h2 hr, fun d hd => ?_⟩
  have hd' : s.quietDeadline = some d := hd
  obtain ⟨hin, hb1, hb2⟩ := h3 d hd'
  refine ⟨?_, hb1, hb2⟩
  show s.inflight.filter p = []
  rw [hin]
  rfl

theorem Inv_finishReq (s : SettleState) (id : String) (h : Inv s)
    (hr : s.resolved = false) : Inv (finishReq s id) := by
  unfold finishReq
  split
  · exact Inv_maybeQuiet _ (Inv_clearQuiet _ (Inv_filterUpdate s _ _ _ h)) hr
  · exact h

theorem Inv_onRequest (s : SettleState) (id : String) (typ : RType)
    (frameId : Option String) (h : Inv s) :
    Inv (onRequest s id typ frameId) := by
  unfold onRequest
  split
  · exact h
  · refine ⟨fun hr => h.1 hr, fun hres => ?_, fun d hd => ?_⟩
    · obtain ⟨ha, _, hc, hdg, he⟩ := h.2.1 hres
      exact ⟨ha, rfl, hc, hdg, he⟩
    · have hd' : (none : Option Nat) = some d := hd
      cases hd'

theorem Inv_onDataUrl (s : SettleState) (id url : String) (h : Inv s)
    (hr : s.resolved = false) : Inv (onDataUrl s id url) := by
  unfold onDataUrl
  split
  · exact Inv_finishReq s id h hr
  · exact h

theorem Inv_onFrameStop (s : SettleState) (f : String) (h : Inv s)
    (hr : s.resolved = false) : Inv (onFrameStop s f) := by
  unfold onFrameStop
  split
  · exact Inv_finishReq s _ h hr
  · exact h

theorem Inv_sweep (s : SettleState) (h : Inv s) (hr : s.resolved = false) :
    Inv (stalledRequestSweep s) :=
  Inv_maybeQuiet _ (Inv_filterUpdate s _ _ _ h) hr

theorem Inv_resolveDone (s : SettleState) (h : Inv s)
    (hr : s.resolved = false) : Inv (resolveDone s) := by
  obtain ⟨h1, h2, h3⟩ := h
  have hc : s.resolveCount = 0 := (h1 hr).2.2.2.1
  refine ⟨fun hres => ?_, fun _ => ⟨rfl, rfl, rfl, rfl, ?_⟩, fun d hd => ?_⟩
  · have hres' : (true : Bool) = false := hres
    cases hres'
  · show s.resolveCount + 1 = 1
    omega
  · have hd' : (none : Option Nat) = some d := hd
    cases hd'

theorem Inv_tick (s : SettleState) (dt : Nat)
    (hok : deadlineOk s (s.now + dt) = true) (h : Inv s) :
    Inv { s with now := s.now + dt } := by
  obtain ⟨h1, h2, h3⟩ := h
  unfold deadlineOk at hok
  rw [Bool.and_eq_true] at hok
  refine ⟨fun hr => ?_, fun hr => h2 hr, fun d hd => ?_⟩
  · obtain ⟨ha, hb, hc, hcnt, _⟩ := h1 hr
    refine ⟨ha, hb, hc, hcnt, ?_⟩
    have hg := hok.2
    rw [hc] at hg
    have : s.now + dt ≤ s.timeout := by simpa using hg
    exact this
  · have hdq : s.quietDeadline = some d := hd
    obtain ⟨hin, _, hb2⟩ := h3 d hdq
    have hq := hok.1
    rw [hdq] at hq
    simp at hq
    refine ⟨hin, hq, ?_⟩
    show d ≤ s.now + dt + quietWindowMs
    omega

theorem resolved_false_of_handler (s : SettleState) (h : Inv s) (x : String)
    (hx : x ∈ s.handlers) : s.resolved = false := by
  cases hres : s.resolved
  · rfl
  · rw [(h.2.1 hres).1] at hx
    cases hx

theorem resolved_false_of_sweepOn (s : SettleState) (h : Inv s)
    (hs : s.sweepOn = true) : s.resolved = false := by
  cases hres : s.resolved
  · rfl
  · rw [(h.2.1 hres).2.2.1] at hs
    cases hs

theorem Inv_initSettle (timeoutMs : Option Nat) :
    Inv (initSettle timeoutMs) := by
  refine Inv_maybeQuiet _ ⟨fun _ => ?_, fun hr => ?_, fun d hd => ?_⟩ rfl
  · exact ⟨rfl, rfl, rfl, rfl, Nat.zero_le _⟩
  · have hr' : (false : Bool) = true := hr
    cases hr'
  · have hd' : (none : Option Nat) = some d := hd
    cases hd'

theorem Inv_reach (timeoutMs : Option Nat) (s : SettleState)
    (h : Reach timeoutMs s) :
    Inv s ∧ s.timeout = settleTimeout timeoutMs := by
  induction h with
  | init =>
    refine ⟨Inv_initSettle timeoutMs, ?_⟩
    show (maybeQuiet _).timeout = _
    rw [maybeQuiet_timeout]
  | step s s' e hr hstep ih =>
    obtain ⟨hinv, htm⟩ := ih
    cases hstep with
    | tick dt hok => exact ⟨Inv_tick s dt hok hinv, htm⟩
    | request id typ frameId hh =>
      exact ⟨Inv_onRequest s id typ frameId hinv,
        (onRequest_timeout s id typ frameId).trans htm⟩
    | loadingFinished id hh =>
      exact ⟨Inv_finishReq s id hinv (resolved_false_of_handler s hinv _ hh),
        (finishReq_timeout s id).trans htm⟩
    | loadingFailed id hh =>
      exact ⟨Inv_finishReq s id hinv (resolved_false_of_handler s hinv _ hh),
        (finishReq_timeout s id).trans htm⟩
    | servedFromCache id hh =>
      exact ⟨Inv_finishReq s id hinv (resolved_false_of_handler s hinv _ hh),
        (finishReq_timeout s id).trans htm⟩
    | responseReceived id url hh =>
      exact ⟨Inv_onDataUrl s id url hinv
        (resolved_false_of_handler s hinv _ hh),
        (onDataUrl_timeout s id url).trans htm⟩
    | frameStoppedLoading f hh =>
      exact ⟨Inv_onFrameStop s f hinv
        (resolved_false_of_handler s hinv _ hh),
        (onFrameStop_timeout s f).trans htm⟩
    | sweepTick hh =>
      exact ⟨Inv_sweep s hinv (resolved_false_of_sweepOn s hinv hh),
        (sweep_timeout s).trans htm⟩
    | quietFire hh =>
      have hrf : s.resolved = false := by
        cases hres : s.resolved
        · rfl
        · rw [(hinv.2.1 hres).2.1] at hh
          cases hh
      exact ⟨Inv_resolveDone s hinv hrf, htm⟩
    | guardFire h1 h2 =>
      have hrf : s.resolved = false := by
        cases hres : s.resolved
        · rfl
        · rw [(hinv.2.1 hres).2.2.2.1] at h1
          cases h1
      exact ⟨Inv_resolveDone s hinv hrf, htm⟩

theorem maybeQuiet_quiet_fresh (s : SettleState) (d : Nat)
    (hd : (maybeQuiet s).quietDeadline = some d) :
    s.quietDeadline = some d ∨
      (d = s.now + quietWindowMs ∧ (maybeQuiet s).inflight = []) := by
  unfold maybeQuiet at hd ⊢
  by_cases hc : s.inflight = [] ∧ s.quietDeadline = none
  · rw [if_pos hc] at hd ⊢
    right
    have hd' : some (s.now + quietWindowMs) = some d := hd
    have : s.now + quietWindowMs = d := by injection hd'
    exact ⟨this.symm, hc.1⟩
  · rw [if_neg hc] at hd
    exact Or.inl hd

theorem finishReq_of_mem (s : SettleState) (id : String)
    (h : id ∈ s.inflight) :
    finishReq s id = maybeQuiet (clearQuiet
      { s with
        inflight := s.inflight.filter (fun x => ¬ x = id),
        meta := s.meta.filter (fun e => ¬ e.1 = id),
        docByFrame := s.docByFrame.filter (fun e => ¬ e.2 = id) }) := by
  unfold finishReq
  rw [if_pos h]

theorem finishReq_of_not_mem (s : SettleState) (id : String)
    (h : ¬ id ∈ s.inflight) : finishReq s id = s := by
  unfold finishReq
  rw [if_neg h]

theorem finishReq_quiet_fresh (s : SettleState) (id : String) (d : Nat)
    (hd : (finishReq s id).quietDeadline = some d) :
    s.quietDeadline = some d ∨
      (d = s.now + quietWindowMs ∧ (finishReq s id).inflight = []) := by
  by_cases hmem : id ∈ s.inflight
  · rw [finishReq_of_mem s id hmem] at hd ⊢
    rcases maybeQuiet_quiet_fresh _ d hd with h | h
    · have h' : (none : Option Nat) = some d := h
      cases h'
    · exact Or.inr h
  · rw [finishReq_of_not_mem s id hmem] at hd ⊢
    exact Or.inl hd

theorem onRequest_quiet_some (s : SettleState) (id : String) (typ : RType)
    (frameId : Option String) (d : Nat)
    (hd : (onRequest s id typ frameId).quietDeadline = some d) :
    s.quietDeadline = some d := by
  unfold onRequest at hd
  split at hd
  · exact hd
  · have hd' : (none : Option Nat) = some d := hd
    cases hd'

theorem onDataUrl_quiet_fresh (s : SettleState) (id url : String) (d : Nat)
    (hd : (onDataUrl s id url).quietDeadline = some d) :
    s.quietDeadline = some d ∨
      (d = s.now + quietWindowMs ∧ (onDataUrl s id url).inflight = []) := by
  cases hu : url.startsWith "data:" with
  | true =>
    have he : onDataUrl s id url = finishReq s id := by
      unfold onDataUrl
      simp [hu]
    rw [he] at hd ⊢
    exact finishReq_quiet_fresh s id d hd
  | false =>
    have he : onDataUrl s id url = s := by
      unfold onDataUrl
      simp [hu]
    rw [he] at hd
    exact Or.inl hd

theorem onFrameStop_quiet_fresh (s : SettleState) (f : String) (d : Nat)
    (hd : (onFrameStop s f).quietDeadline = some d) :
    s.quietDeadline = some d ∨
      (d = s.now + quietWindowMs ∧ (onFrameStop s f).inflight = []) := by
  cases heq : alookup s.docByFrame f with
  | some id =>
    have he : onFrameStop s f = finishReq s id := by
      unfold onFrameStop
      rw [heq]
    rw [he] at hd ⊢
    exact finishReq_quiet_fresh s id d hd
  | none =>
    have he : onFrameStop s f = s := by
      unfold onFrameStop
      rw [heq]
    rw [he] at hd
    exact Or.inl hd

theorem sweep_quiet_fresh (s : SettleState) (d : Nat)
    (hd : (stalledRequestSweep s).quietDeadline = some d) :
    s.quietDeadline = some d ∨
      (d = s.now + quietWindowMs ∧ (stalledRequestSweep s).inflight = []) := by
  unfold stalledRequestSweep at hd ⊢
  rcases maybeQuiet_quiet_fresh _ d hd with h | h
  · exact Or.inl h
  · exact Or.inr h

/-- C3. The settle-wait contract of `_waitForSettledDom(timeoutMs)` over
every reachable state of one invocation: `resolveDone` runs at most once; in
a resolved state all six event subscriptions are removed and the quiet,
sweep and guard timers are cleared (the cleanup happens in the same atomic
`resolveDone` step, before the promise resolves); while unresolved, time
cannot pass `timeoutMs` and at the deadline the guard fire step is enabled;
an armed quiet timer certifies an empty tracked-inflight set and fires at
most 500 ms ahead; a step can resolve only as the quiet timer firing at its
deadline (with the inflight set empty, the timer having been armed 500 ms
earlier when the set became empty) or as the guard firing exactly at
`timeoutMs`; arming the quiet timer happens exactly 500 ms after the
inflight set is observed empty; and the timeout defaults to 30 s. -/
theorem waitForSettledDom_contract (timeoutMs : Option Nat) (s : SettleState)
    (h : Reach timeoutMs s) :
    s.resolveCount ≤ 1 ∧
    (s.resolved = true → s.handlers = [] ∧ s.quietDeadline = none ∧
      s.sweepOn = false ∧ s.guardOn = false) ∧
    (s.resolved = false → s.now ≤ s.timeout ∧
      (s.now = s.timeout → Step s .guardFire (resolveDone s))) ∧
    (∀ d, s.quietDeadline = some d →
      s.inflight = [] ∧ s.now ≤ d ∧ d ≤ s.now + quietWindowMs) ∧
    (∀ e s', Step s e s' → s.resolved = false → s'.resolved = true →
      (e = .quietFire ∧ s.quietDeadline = some s.now ∧ s.inflight = []) ∨
      (e = .guardFire ∧ s.now = s.timeout)) ∧
    (∀ e s', Step s e s' → s.quietDeadline = none →
      ∀ d, s'.quietDeadline = some d →
        d = s.now + quietWindowMs ∧ s'.inflight = []) ∧
    s.timeout = settleTimeout timeoutMs ∧
    settleTimeout none = domSettleTimeoutMs := by
  obtain ⟨hinv, htm⟩ := Inv_reach timeoutMs s h
  refine ⟨?_, ?_, ?_, hinv.2.2, ?_, ?_, htm, rfl⟩
  · cases hres : s.resolved
    · have := (hinv.1 hres).2.2.2.1
      omega
    · have := (hinv.2.1 hres).2.2.2.2
      omega
  · intro hres
    obtain ⟨ha, hb, hc, hd, _⟩ := hinv.2.1 hres
    exact ⟨ha, hb, hc, hd⟩
  · intro hres
    obtain ⟨_, _, hg, _, hle⟩ := hinv.1 hres
    exact ⟨hle, fun heq => Step.guardFire s hg heq⟩
  · intro e s' hst hrf hrt
    cases hst with
    | tick dt hok =>
      have hrt' : s.resolved = true := hrt
      rw [hrf] at hrt'
      cases hrt'
    | request id typ frameId hh =>
      rw [onRequest_resolved, hrf] at hrt
      cases hrt
    | loadingFinished id hh =>
      rw [finishReq_resolved, hrf] at hrt
      cases hrt
    | loadingFailed id hh =>
      rw [finishReq_resolved, hrf] at hrt
      cases hrt
    | servedFromCache id hh =>
      rw [finishReq_resolved, hrf] at hrt
      cases hrt
    | responseReceived id url hh =>
      rw [onDataUrl_resolved, hrf] at hrt
      cases hrt
    | frameStoppedLoading f hh =>
      rw [onFrameStop_resolved, hrf] at hrt
      cases hrt
    | sweepTick hh =>
      rw [sweep_resolved, hrf] at hrt
      cases hrt
    | quietFire hh =>
      exact Or.inl ⟨rfl, hh, (hinv.2.2 _ hh).1⟩
    | guardFire h1 h2 =>
      exact Or.inr ⟨rfl, h2⟩
  · intro e s' hst hq d hd
    cases hst with
    | tick dt hok =>
      have hd' : s.quietDeadline = some d := hd
      rw [hq] at hd'
      cases hd'
    | request id typ frameId hh =>
      have := onRequest_quiet_some s id typ frameId d hd
      rw [hq] at this
      cases this
    | loadingFinished id hh =>
      rcases finishReq_quiet_fresh s id d hd with hcon | hok
      · rw [hq] at hcon
        cases hcon
      · exact hok
    | loadingFailed id hh =>
      rcases finishReq_quiet_fresh s id d hd with hcon | hok
      · rw [hq] at hcon
        cases hcon
      · exact hok
    | servedFromCache id hh =>
      rcases finishReq_quiet_fresh s id d hd with hcon | hok
      · rw [hq] at hcon
        cases hcon
      · exact hok
    | responseReceived id url hh =>
      rcases onDataUrl_quiet_fresh s id url d hd with hcon | hok
      · rw [hq] at hcon
        cases hcon
      · exact hok
    | frameStoppedLoading f hh =>
      rcases onFrameStop_quiet_fresh s f d hd with hcon | hok
      · rw [hq] at hcon
        cases hcon
      · exact hok
    | sweepTick hh =>
      rcases sweep_quiet_fresh s d hd with hcon | hok
      · rw [hq] at hcon
        cases hcon
      · exact hok
    | quietFire hh =>
      have hd' : (none : Option Nat) = some d := hd
      cases hd'
    | guardFire h1 h2 =>
      have hd' : (none : Option Nat) = some d := hd
      cases hd'

/-- Witness for `waitForSettledDom_contract` on a concrete two-step run:
start with nothing inflight, advance 500 ms, quiet timer fires and resolves;
the contract applies and yields the cleanup facts. -/
theorem waitForSettledDom_contract_witness :
    (resolveDone
      { initSettle none with now := (initSettle none).now + 500 }).resolveCount ≤ 1 ∧
    (resolveDone
      { initSettle none with now := (initSettle none).now + 500 }).handlers = [] := by
  have hreach : Reach none (resolveDone
      { initSettle none with now := (initSettle none).now + 500 }) := by
    refine Reach.step _ _ _ (Reach.step _ _ _ Reach.init
      (Step.tick (initSettle none) 500 (by decide))) (Step.quietFire _ ?_)
    decide
  have h := waitForSettledDom_contract none _ hreach
  exact ⟨h.1, (h.2.1 rfl).1⟩

/-- A concrete detector state holding one request whose age is exactly
2000 ms at sweep time. -/
def boundarySweepState : SettleState :=
  { now := 2000, timeout := 30000, inflight := ["r1"], meta := [("r1", 0)],
    docByFrame := [], handlers := networkHandlers, quietDeadline := none,
    sweepOn := true, guardOn := true, resolved := false, resolveCount := 0 }

/-- C4 counterexample. A request whose age is exactly 2 s (`now - start =
2000 ≥ 2000`) survives the sweep: the source condition is the strict
`now - m.start > 2_000`, so at age exactly 2 s nothing is removed — refuting
"for each inflight request whose age is at least 2 seconds (age ≥ 2 s),
removes it". -/
theorem sweep_boundary_counterexample :
    (2000 : Nat) ≤ boundarySweepState.now - 0 ∧
    ("r1", 0) ∈ boundarySweepState.meta ∧
    "r1" ∈ boundarySweepState.inflight ∧
    "r1" ∈ (stalledRequestSweep boundarySweepState).inflight ∧
    ("r1", 0) ∈ (stalledRequestSweep boundarySweepState).meta := by
  decide

/-- The bookkeeping part of the sweep body (before `maybeQuiet()`). -/
def sweepBulk (s : SettleState) : SettleState :=
  { s with
    inflight := s.inflight.filter (fun id =>
      ¬ id ∈ (s.meta.filter (stalled s.now)).map (·.1)),
    meta := s.meta.filter (fun e => ¬ stalled s.now e = true) }

theorem stalledRequestSweep_eq (s : SettleState) :
    stalledRequestSweep s = maybeQuiet (sweepBulk s) := rfl

theorem maybeQuiet_quiet_pos (s : SettleState)
    (h : s.inflight = [] ∧ s.quietDeadline = none) :
    (maybeQuiet s).quietDeadline = some (s.now + quietWindowMs) := by
  unfold maybeQuiet
  rw [if_pos h]

theorem maybeQuiet_quiet_neg (s : SettleState)
    (h : ¬ (s.inflight = [] ∧ s.quietDeadline = none)) :
    (maybeQuiet s).quietDeadline = s.quietDeadline := by
  unfold maybeQuiet
  rw [if_neg h]

/-- C4 amended. The sweep interval is 500 ms; a sweep removes from `inflight`
and `meta` exactly the requests whose age is *strictly greater* than 2 s
(`now - start > 2000`), and afterwards arms the quiet timer exactly when the
remaining inflight set is empty and no quiet timer is armed. -/
theorem sweep_spec (s : SettleState) :
    (∀ id, id ∈ (stalledRequestSweep s).inflight ↔
      id ∈ s.inflight ∧ ¬ ∃ st, (id, st) ∈ s.meta ∧ stallAgeMs < s.now - st) ∧
    (∀ id st, (id, st) ∈ (stalledRequestSweep s).meta ↔
      (id, st) ∈ s.meta ∧ ¬ stallAgeMs < s.now - st) ∧
    ((stalledRequestSweep s).inflight = [] ∧ s.quietDeadline = none →
      (stalledRequestSweep s).quietDeadline = some (s.now + quietWindowMs)) ∧
    (¬ ((stalledRequestSweep s).inflight = [] ∧ s.quietDeadline = none) →
      (stalledRequestSweep s).quietDeadline = s.quietDeadline) ∧
    sweepIntervalMs = 500 ∧ stallAgeMs = 2000 := by
  have hif : (stalledRequestSweep s).inflight =
      s.inflight.filter (fun i =>
        ¬ i ∈ (s.meta.filter (stalled s.now)).map (·.1)) := by
    rw [stalledRequestSweep_eq, maybeQuiet_inflight]
    rfl
  refine ⟨?_, ?_, ?_, ?_, rfl, rfl⟩
  · intro id
    rw [hif, List.mem_filter]
    simp only [decide_eq_true_eq]
    constructor
    · rintro ⟨hin, hns⟩
      refine ⟨hin, fun hex => hns ?_⟩
      obtain ⟨st, hmem, hage⟩ := hex
      refine List.mem_map.mpr ⟨(id, st), List.mem_filter.mpr ⟨hmem, ?_⟩, rfl⟩
      simp [stalled, hage]
    · rintro ⟨hin, hns⟩
      refine ⟨hin, fun hex => hns ?_⟩
      obtain ⟨a, hmem, hfst⟩ := List.mem_map.mp hex
      obtain ⟨hmem', hst⟩ := List.mem_filter.mp hmem
      refine ⟨a.2, ?_, ?_⟩
      · have ha : (id, a.2) = a := by
          rw [← hfst]
        rw [ha]
        exact hmem'
      · simpa [stalled] using hst
  · intro id st
    have hm : (stalledRequestSweep s).meta =
        s.meta.filter (fun e => ¬ stalled s.now e = true) := by
      rw [stalledRequestSweep_eq, maybeQuiet_meta]
      rfl
    rw [hm, List.mem_filter]
    simp [stalled]
  · intro hc
    rw [hif] at hc
    rw [stalledRequestSweep_eq]
    exact maybeQuiet_quiet_pos (sweepBulk s) ⟨hc.1, hc.2⟩
  · intro hc
    rw [hif] at hc
    rw [stalledRequestSweep_eq]
    exact maybeQuiet_quiet_neg (sweepBulk s) (fun hcc => hc ⟨hcc.1, hcc.2⟩)

/-- Witness for `sweep_spec`: at the boundary state the entry of age exactly
2000 ms stays in the inflight set. -/
theorem sweep_spec_witness :
    "r1" ∈ (stalledRequestSweep boundarySweepState).inflight := by
  refine ((sweep_spec boundarySweepState).1 "r1").mpr ⟨by decide, ?_⟩
  rintro ⟨st, hmem, hage⟩
  simp only [boundarySweepState, List.mem_singleton, Prod.mk.injEq] at hmem
  obtain ⟨-, rfl⟩ := hmem
  simp [boundarySweepState, stallAgeMs] at hage

end PageFlow
